import Mathlib

/-!
# Verification of the node-msgr RPC correlation engine

Shallow embedding of `src/index.ts` (class `Msgr`): the response
classifier inside `rpcExec`'s reply callback, the correlation registry
(`unresolved : Map<string, Function>`) together with the per-call timer,
the reply listener `_handleReply`, the send-option construction for the
RPC publish, and the channel-deferral logic of `rpcExec` / `publish` /
`consume` via `_waitForChannel`.

JavaScript values reaching the classifier are JSON-parsed message bodies;
they are modelled by the inductive `JsVal` (with `undefined` for absent
fields), and JS truthiness by `truthy`.  Machine integers do not occur:
the only numbers involved are millisecond timeouts, modelled as `Int`.
-/

namespace Msgr

/-- A JSON-ish JavaScript value: the payloads, reply envelopes and
option-object fields the client manipulates.  `undefined` stands for a
missing property. -/
inductive JsVal where
  | null
  | undefined
  | bool (b : Bool)
  | num (n : Int)
  | str (s : String)
  | arr (elems : List JsVal)
  | obj (fields : List (String × JsVal))

/-- JavaScript truthiness of a `JsVal` (`if (x)`): `null`, `undefined`,
`false`, `0` and the empty string are falsy, everything else is truthy.
(`NaN` is not representable here; no claim involves it.) -/
def truthy : JsVal → Bool
  | .null => false
  | .undefined => false
  | .bool b => b
  | .num n => n != 0
  | .str s => s != ""
  | .arr _ => true
  | .obj _ => true

/-- Property access `v.k` on a parsed JSON value: looks `k` up among the
fields of an object, yielding `undefined` when the key is absent. -/
def getField : JsVal → String → JsVal
  | .obj fields, k =>
      match fields.lookup k with
      | some v => v
      | none => .undefined
  | _, _ => .undefined

/-- The caller-visible settlement of an `rpcExec` promise.  `rejectFatal`
is `reject(new Error('Fatal consumer error'))`, `rejectClient` is
`reject(new ClientError('Client error', response.data))` (the second
component is the `clientMessages` field of `ClientError`), `rejectTimeout`
is the timer's `reject(new Error(...))`, and `resolve` is
`resolve(response.data)`. -/
inductive Outcome where
  | resolve (data : JsVal)
  | rejectFatal (message : String)
  | rejectClient (message : String) (clientMessages : JsVal)
  | rejectTimeout (message : String)

/-- The body of the reply callback that `rpcExec` registers in
`unresolved` (after `clearTimeout`): classify the parsed `response`.

```
if (response.error && response.trace) return reject(new Error('Fatal consumer error'));
if (response.error) return reject(new ClientError('Client error', response.data));
resolve(response.data);
```
-/
def classifyReply (response : JsVal) : Outcome :=
  if truthy (getField response "error") && truthy (getField response "trace") then
    .rejectFatal "Fatal consumer error"
  else if truthy (getField response "error") then
    .rejectClient "Client error" (getField response "data")
  else
    .resolve (getField response "data")

/-- `const timeout = options.timeout || 15000`: an absent or falsy
(zero) `timeout` option falls back to the 15000 ms default. -/
def effectiveTimeout (timeoutOption : Option Int) : Int :=
  match timeoutOption with
  | some t => if t == 0 then 15000 else t
  | none => 15000

/-- The timer's rejection message, from the template literal
`RPC Server failed to respond before the configured timeout (*ms)`. -/
def timeoutMessage (timeout : Int) : String :=
  "RPC Server failed to respond before the configured timeout (" ++ toString timeout ++ "ms)"

/-- The observable per-instance state of the RPC correlation engine:
`unresolved` models the keys of `Map<string, Function> unresolved` (every
registered callback behaves as `classifyReply`), `timers` the armed,
not-yet-cleared `setTimeout` timers with the `timeout` value each closure
captured, and `settled` the log of `resolve`/`reject` firings, in order. -/
structure MsgrState where
  unresolved : List String
  timers : List (String × Int)
  settled : List (String × Outcome)

/-- How many times the promise associated with `id` has been settled. -/
def settleCount (s : MsgrState) (id : String) : Nat :=
  s.settled.countP (fun p => p.1 == id)

/-- The common terminal action of the reply path and the timeout path:
remove `id` from the `unresolved` map, disarm its timer (`clearTimeout`
on the reply path; one-shot expiry on the timeout path) and fire the
continuation with outcome `o`. -/
def settle (s : MsgrState) (id : String) (o : Outcome) : MsgrState :=
  { unresolved := s.unresolved.filter (fun x => x != id),
    timers := s.timers.filter (fun p => p.1 != id),
    settled := s.settled ++ [(id, o)] }

/-- `_handleReply(message)`: look `message.properties.correlationId` up in
`unresolved` (a missing `correlationId` matches no key); when a callback
is found, delete the entry and invoke the callback, which clears the
timer and classifies the parsed content; otherwise do nothing. -/
def handleReply (s : MsgrState) (correlationId : Option String) (content : JsVal) : MsgrState :=
  match correlationId with
  | none => s
  | some id =>
    if id ∈ s.unresolved then settle s id (classifyReply content)
    else s

/-- The `setTimeout` handler of `rpcExec`: it runs only while the timer
is still armed (a matching reply would have called `clearTimeout`), then
deletes the registry entry and rejects with the timeout message built
from the captured `timeout` value. -/
def fireTimer (s : MsgrState) (id : String) : MsgrState :=
  match s.timers.lookup id with
  | none => s
  | some t => settle s id (.rejectTimeout (timeoutMessage t))

/-- The two kinds of tasks that act on a pending call in the
single-threaded event-processing model: a broker message delivered to the
reply listener, or an armed timer firing. -/
inductive Event where
  | deliverReply (correlationId : Option String) (content : JsVal)
  | timerFire (correlationId : String)

/-- Process one event. -/
def step (s : MsgrState) : Event → MsgrState
  | .deliverReply cid content => handleReply s cid content
  | .timerFire id => fireTimer s id

/-- Process a sequence of events in order. -/
def run (s : MsgrState) (events : List Event) : MsgrState :=
  events.foldl step s

/-- The options object accepted by `rpcExec`: `RpcOptions extends
AMQP.Options.Publish { timeout?: number }` — the optional `timeout` plus
whatever transport-native publish fields the caller supplied. -/
structure RpcOptions where
  timeout : Option Int
  publishOptions : List (String × JsVal)

/-- The registration performed by `rpcExec`'s ready path: arm the timer
for the effective timeout and `unresolved.set(correlationId, callback)`. -/
def rpcExecRegister (s : MsgrState) (correlationId : String) (options : RpcOptions) : MsgrState :=
  { unresolved := s.unresolved ++ [correlationId],
    timers := s.timers ++ [(correlationId, effectiveTimeout options.timeout)],
    settled := s.settled }

/-- The call `id` is outstanding: registered, timer armed, not settled. -/
def pending (s : MsgrState) (id : String) : Prop :=
  id ∈ s.unresolved ∧ (s.timers.lookup id).isSome = true ∧ settleCount s id = 0

instance (s : MsgrState) (id : String) : Decidable (pending s id) :=
  inferInstanceAs (Decidable (_ ∧ _ ∧ _))

/-- The call `id` has reached its terminal state: deregistered, timer
gone, settled exactly once. -/
def settledOnce (s : MsgrState) (id : String) : Prop :=
  id ∉ s.unresolved ∧ s.timers.lookup id = none ∧ settleCount s id = 1

instance (s : MsgrState) (id : String) : Decidable (settledOnce s id) :=
  inferInstanceAs (Decidable (_ ∧ _ ∧ _))

theorem lookup_filter_self (l : List (String × Int)) (b : String) :
    (l.filter (fun p => p.1 != b)).lookup b = none := by
  induction l with
  | nil => rfl
  | cons p rest ih =>
    rcases p with ⟨k, v⟩
    by_cases h : k = b
    · subst h; simpa using ih
    · have hb : (k != b) = true := bne_iff_ne.mpr h
      have hb' : (b == k) = false := beq_eq_false_iff_ne.mpr (Ne.symm h)
      simp [List.filter_cons, hb, List.lookup, hb', ih]

theorem lookup_filter_ne (l : List (String × Int)) (a b : String) (h : a ≠ b) :
    (l.filter (fun p => p.1 != b)).lookup a = l.lookup a := by
  induction l with
  | nil => rfl
  | cons p rest ih =>
    rcases p with ⟨k, v⟩
    by_cases hk : k = b
    · subst hk
      have hb' : (a == k) = false := beq_eq_false_iff_ne.mpr h
      simp [List.filter_cons, List.lookup, hb', ih]
    · have hb : (k != b) = true := bne_iff_ne.mpr hk
      by_cases hak : a = k
      · subst hak; simp [List.filter_cons, hb, List.lookup]
      · have hb' : (a == k) = false := beq_eq_false_iff_ne.mpr hak
        simp [List.filter_cons, hb, List.lookup, hb', ih]

theorem mem_filter_ne (l : List String) (a b : String) (h : a ≠ b) :
    a ∈ l.filter (fun x => x != b) ↔ a ∈ l := by
  simp [List.mem_filter, bne_iff_ne, h]

theorem not_mem_filter_self (l : List String) (b : String) :
    b ∉ l.filter (fun x => x != b) := by
  simp [List.mem_filter]

theorem settleCount_settle_ne (s : MsgrState) (a b : String) (o : Outcome) (h : a ≠ b) :
    settleCount (settle s b o) a = settleCount s a := by
  have hb : (b == a) = false := beq_eq_false_iff_ne.mpr (Ne.symm h)
  simp [settleCount, settle, List.countP_append, List.countP_cons, hb]

theorem settleCount_settle_self (s : MsgrState) (b : String) (o : Outcome) :
    settleCount (settle s b o) b = settleCount s b + 1 := by
  simp [settleCount, settle, List.countP_append, List.countP_cons]

theorem settledOnce_settle_of_pending (s : MsgrState) (id : String) (o : Outcome)
    (h : pending s id) : settledOnce (settle s id o) id := by
  refine ⟨not_mem_filter_self _ _, lookup_filter_self _ _, ?_⟩
  rw [settleCount_settle_self, h.2.2]

theorem pending_settle_ne (s : MsgrState) (id id' : String) (o : Outcome)
    (h : pending s id) (hne : id ≠ id') : pending (settle s id' o) id :=
  ⟨(mem_filter_ne _ _ _ hne).mpr h.1,
   by rw [show (settle s id' o).timers = s.timers.filter (fun p => p.1 != id') from rfl,
        lookup_filter_ne _ _ _ hne]; exact h.2.1,
   by rw [settleCount_settle_ne _ _ _ _ hne]; exact h.2.2⟩

theorem settledOnce_settle_ne (s : MsgrState) (id id' : String) (o : Outcome)
    (h : settledOnce s id) (hne : id ≠ id') : settledOnce (settle s id' o) id :=
  ⟨fun hmem => h.1 ((mem_filter_ne _ _ _ hne).mp hmem),
   by rw [show (settle s id' o).timers = s.timers.filter (fun p => p.1 != id') from rfl,
        lookup_filter_ne _ _ _ hne]; exact h.2.1,
   by rw [settleCount_settle_ne _ _ _ _ hne]; exact h.2.2⟩

theorem step_pending_dichotomy (s : MsgrState) (id : String) (e : Event) (h : pending s id) :
    pending (step s e) id ∨ settledOnce (step s e) id := by
  cases e with
  | deliverReply cid content =>
    cases cid with
    | none => exact Or.inl h
    | some id' =>
      by_cases hmem : id' ∈ s.unresolved
      · by_cases hne : id = id'
        · subst hne
          exact Or.inr (by simpa [step, handleReply, hmem] using
            settledOnce_settle_of_pending s id _ h)
        · exact Or.inl (by simpa [step, handleReply, hmem] using
            pending_settle_ne s id id' _ h hne)
      · simpa [step, handleReply, hmem] using Or.inl h
  | timerFire id' =>
    cases hl : s.timers.lookup id' with
    | none => simpa [step, fireTimer, hl] using Or.inl h
    | some t =>
      by_cases hne : id = id'
      · subst hne
        exact Or.inr (by simpa [step, fireTimer, hl] using
          settledOnce_settle_of_pending s id _ h)
      · exact Or.inl (by simpa [step, fireTimer, hl] using
          pending_settle_ne s id id' _ h hne)

theorem step_settledOnce (s : MsgrState) (id : String) (e : Event)
    (h : settledOnce s id) : settledOnce (step s e) id := by
  cases e with
  | deliverReply cid content =>
    cases cid with
    | none => exact h
    | some id' =>
      by_cases hmem : id' ∈ s.unresolved
      · have hne : id ≠ id' := fun hEq => h.1 (hEq ▸ hmem)
        simpa [step, handleReply, hmem] using settledOnce_settle_ne s id id' _ h hne
      · simpa [step, handleReply, hmem] using h
  | timerFire id' =>
    cases hl : s.timers.lookup id' with
    | none => simpa [step, fireTimer, hl] using h
    | some t =>
      have hne : id ≠ id' := by
        intro hEq; subst hEq; rw [h.2.1] at hl; cases hl
      simpa [step, fireTimer, hl] using settledOnce_settle_ne s id id' _ h hne

theorem step_reply_settles (s : MsgrState) (id : String) (content : JsVal)
    (h : pending s id) :
    settledOnce (step s (Event.deliverReply (some id) content)) id := by
  simpa [step, handleReply, h.1] using settledOnce_settle_of_pending s id _ h

theorem step_timer_settles (s : MsgrState) (id : String) (h : pending s id) :
    settledOnce (step s (Event.timerFire id)) id := by
  obtain ⟨t, hl⟩ := Option.isSome_iff_exists.mp h.2.1
  simpa [step, fireTimer, hl] using settledOnce_settle_of_pending s id _ h

theorem run_settledOnce (s : MsgrState) (id : String) (events : List Event)
    (h : settledOnce s id) : settledOnce (run s events) id := by
  induction events generalizing s with
  | nil => exact h
  | cons e rest ih => exact ih _ (step_settledOnce s id e h)

theorem run_pending_dichotomy (s : MsgrState) (id : String) (events : List Event)
    (h : pending s id) :
    pending (run s events) id ∨ settledOnce (run s events) id := by
  induction events generalizing s with
  | nil => exact Or.inl h
  | cons e rest ih =>
    rcases step_pending_dichotomy s id e h with hp | hs
    · exact ih _ hp
    · exact Or.inr (run_settledOnce _ id rest hs)

theorem run_settles_of_mem_timer (s : MsgrState) (id : String) (events : List Event)
    (h : pending s id) (hmem : Event.timerFire id ∈ events) :
    settledOnce (run s events) id := by
  induction events generalizing s with
  | nil => cases hmem
  | cons e rest ih =>
    cases hmem with
    | head => exact run_settledOnce _ id rest (step_timer_settles s id h)
    | tail _ hmem' =>
      rcases step_pending_dichotomy s id e h with hp | hs
      · exact ih _ hp hmem'
      · exact run_settledOnce _ id rest hs

theorem run_settles_of_mem_reply (s : MsgrState) (id : String) (content : JsVal)
    (events : List Event) (h : pending s id)
    (hmem : Event.deliverReply (some id) content ∈ events) :
    settledOnce (run s events) id := by
  induction events generalizing s with
  | nil => cases hmem
  | cons e rest ih =>
    cases hmem with
    | head => exact run_settledOnce _ id rest (step_reply_settles s id content h)
    | tail _ hmem' =>
      rcases step_pending_dichotomy s id e h with hp | hs
      · exact ih _ hp hmem'
      · exact run_settledOnce _ id rest hs

theorem lookup_append_right (l l2 : List (String × Int)) (a : String)
    (h : l.lookup a = none) : (l ++ l2).lookup a = l2.lookup a := by
  induction l with
  | nil => rfl
  | cons p rest ih =>
    rcases p with ⟨k, v⟩
    by_cases hak : a = k
    · subst hak
      simp only [List.lookup, beq_self_eq_true] at h
      cases h
    · have hb : (a == k) = false := beq_eq_false_iff_ne.mpr hak
      simp only [List.cons_append, List.lookup, hb] at h ⊢
      exact ih h

/-- Invariant carried between registration and timer expiry for call
`id` with effective timeout `t`: either the timer is still armed with
value `t`, or the timeout rejection has already been logged. -/
def timerInv (s : MsgrState) (id : String) (t : Int) : Prop :=
  s.timers.lookup id = some t
  ∨ (id, Outcome.rejectTimeout (timeoutMessage t)) ∈ s.settled

theorem timerInv_step (s : MsgrState) (id : String) (t : Int) (e : Event)
    (hinv : timerInv s id t)
    (hne : ∀ content, e ≠ Event.deliverReply (some id) content) :
    timerInv (step s e) id t := by
  cases e with
  | deliverReply cid content =>
    cases cid with
    | none => exact hinv
    | some id' =>
      have hid : id ≠ id' := fun hEq => hne content (by rw [hEq])
      by_cases hmem : id' ∈ s.unresolved
      · rcases hinv with hl | hs
        · exact Or.inl (by
            simp only [step, handleReply, hmem, if_true, settle]
            rw [lookup_filter_ne _ _ _ hid]; exact hl)
        · exact Or.inr (by
            simp only [step, handleReply, hmem, if_true, settle]
            exact List.mem_append_left _ hs)
      · simpa [step, handleReply, hmem] using hinv
  | timerFire id' =>
    by_cases hid : id = id'
    · subst hid
      rcases hinv with hl | hs
      · exact Or.inr (by simp [step, fireTimer, hl, settle])
      · cases hl' : s.timers.lookup id with
        | none => simpa [step, fireTimer, hl'] using Or.inr hs
        | some t' =>
          exact Or.inr (by
            simp only [step, fireTimer, hl', settle]
            exact List.mem_append_left _ hs)
    · cases hl' : s.timers.lookup id' with
      | none => simpa [step, fireTimer, hl'] using hinv
      | some t' =>
        rcases hinv with hl | hs
        · exact Or.inl (by
            simp only [step, fireTimer, hl', settle]
            rw [lookup_filter_ne _ _ _ hid]; exact hl)
        · exact Or.inr (by
            simp only [step, fireTimer, hl', settle]
            exact List.mem_append_left _ hs)

theorem run_timerInv (s : MsgrState) (id : String) (t : Int) (events : List Event)
    (hinv : timerInv s id t)
    (hnoreply : ∀ content, Event.deliverReply (some id) content ∉ events) :
    timerInv (run s events) id t := by
  induction events generalizing s with
  | nil => exact hinv
  | cons e rest ih =>
    refine ih _ (timerInv_step s id t e hinv ?_)
      (fun c hc => hnoreply c (List.mem_cons_of_mem _ hc))
    intro content hEq
    exact hnoreply content (hEq ▸ List.mem_cons_self _ _)

theorem timerInv_fire (s : MsgrState) (id : String) (t : Int)
    (hinv : timerInv s id t) :
    (id, Outcome.rejectTimeout (timeoutMessage t)) ∈ (fireTimer s id).settled := by
  rcases hinv with hl | hs
  · simp [fireTimer, hl, settle]
  · cases hl' : s.timers.lookup id with
    | none => simpa [fireTimer, hl'] using hs
    | some t' =>
      simp only [fireTimer, hl', settle]
      exact List.mem_append_left _ hs

/-- `DEFAULT_SEND_OPTIONS = { contentType: 'application/json' }`. -/
def DEFAULT_SEND_OPTIONS : List (String × JsVal) :=
  [("contentType", JsVal.str "application/json")]

/-- Assignment of one own property, as `Object.assign` performs it:
overwrite an existing key in place, otherwise append. -/
def setField (o : List (String × JsVal)) (k : String) (v : JsVal) :
    List (String × JsVal) :=
  if o.any (fun p => p.1 == k) then
    o.map (fun p => if p.1 == k then (k, v) else p)
  else o ++ [(k, v)]

/-- `Object.assign(target, source)` on plain option objects. -/
def objectAssign (target source : List (String × JsVal)) : List (String × JsVal) :=
  source.foldl (fun acc kv => setField acc kv.1 kv.2) target

/-- The `sendOptions` built by `rpcExec`:
`Object.assign({}, DEFAULT_SEND_OPTIONS, { correlationId, replyTo: this.replyQueue, expiration: timeout })`.
The caller's `options` object contributes nothing here beyond the
`timeout` already folded into `expiration`. -/
def rpcSendOptions (replyQueue correlationId : String) (options : RpcOptions) :
    List (String × JsVal) :=
  objectAssign (objectAssign [] DEFAULT_SEND_OPTIONS)
    [("correlationId", JsVal.str correlationId),
     ("replyTo", JsVal.str replyQueue),
     ("expiration", JsVal.num (effectiveTimeout options.timeout))]

/-- One `channel.publish(exchange, routingKey, content, options)` call. -/
structure PublishAction where
  exchange : String
  routingKey : String
  content : JsVal
  options : List (String × JsVal)

/-- The publish calls made by one ready-path `rpcExec` invocation:
exactly the single `this.channel.publish(this.exchange, key, content, sendOptions)`. -/
def rpcExecPublishes (exchange key : String) (data : JsVal)
    (replyQueue correlationId : String) (options : RpcOptions) : List PublishAction :=
  [⟨exchange, key, data, rpcSendOptions replyQueue correlationId options⟩]

/-- Settlement state of a JavaScript promise. -/
inductive PromiseState where
  | unsettled
  | fulfilled
  | rejected
deriving DecidableEq

/-- `_waitForChannel()` returns
`new Promise((resolve, reject) => { this.channelPromise.then(() => resolve()); })`:
only a fulfillment reaction is attached to `channelPromise` and `reject`
is never invoked, so when `channelPromise` is rejected (the last
connection attempt failing after the `maxConnectionAttempts` retry
budget is spent) no reaction ever runs and the returned promise stays
unsettled. -/
def waitForChannel : PromiseState → PromiseState
  | .fulfilled => .fulfilled
  | _ => .unsettled

/-- A call deferred as `this._waitForChannel().then(() => retry)`: it
proceeds only once `_waitForChannel`'s promise fulfills. -/
def deferredCall (channelPromise : PromiseState) : PromiseState :=
  match waitForChannel channelPromise with
  | .fulfilled => .fulfilled
  | _ => .unsettled

/-- A public call arriving while `this.channel` is unset. -/
inductive DeferredOp where
  | rpcExec (key : String) (data : JsVal)
  | publish (key : String) (data : JsVal)
  | consume (queueName : String)

/-- `channelPromise` viewed as a reaction queue: `ready` is whether the
channel is established, `reactions` the fulfillment reactions attached by
deferred calls, in attachment order (ECMAScript runs a promise's
fulfillment reactions in the order `then` registered them). -/
structure ChannelWait where
  ready : Bool
  reactions : List DeferredOp

/-- `rpcExec` / `publish` / `consume`: with the channel ready the call
executes at once; otherwise it attaches one retry reaction via
`this._waitForChannel().then(() => this.op(...))`. -/
def issueCall (s : ChannelWait) (op : DeferredOp) : ChannelWait :=
  if s.ready then s else { s with reactions := s.reactions ++ [op] }

/-- Issue a batch of calls in order. -/
def issueCalls (s : ChannelWait) (ops : List DeferredOp) : ChannelWait :=
  ops.foldl issueCall s

/-- Fulfillment of `channelPromise`: the channel is now ready and every
queued reaction is serviced, in queue order. -/
def channelReady (s : ChannelWait) : ChannelWait × List DeferredOp :=
  ({ ready := true, reactions := [] }, s.reactions)

theorem issueCalls_not_ready (q ops : List DeferredOp) :
    issueCalls (ChannelWait.mk false q) ops = ChannelWait.mk false (q ++ ops) := by
  induction ops generalizing q with
  | nil => simp [issueCalls]
  | cons op rest ih =>
    show issueCalls (issueCall (ChannelWait.mk false q) op) rest = _
    rw [show issueCall (ChannelWait.mk false q) op = ChannelWait.mk false (q ++ [op]) from rfl,
      ih]
    simp

end Msgr

namespace Msgr

/-- C1: every reply envelope delivered to a pending call is classified
with the three-way precedence of `rpcExec`'s reply callback: truthy
`error` and truthy `trace` reject with the generic fatal consumer error;
truthy `error` with falsy `trace` reject with a client error whose
`clientMessages` is the envelope's `data`; otherwise the promise resolves
with `data` verbatim. -/
theorem reply_classification (response : JsVal) :
    (∀ s id, id ∈ s.unresolved →
      (handleReply s (some id) response).settled = s.settled ++ [(id, classifyReply response)])
    ∧ (truthy (getField response "error") = true →
      truthy (getField response "trace") = true →
      classifyReply response = Outcome.rejectFatal "Fatal consumer error")
    ∧ (truthy (getField response "error") = true →
      truthy (getField response "trace") = false →
      classifyReply response = Outcome.rejectClient "Client error" (getField response "data"))
    ∧ (truthy (getField response "error") = false →
      classifyReply response = Outcome.resolve (getField response "data")) := by
  refine ⟨fun s id h => ?_, fun he ht => ?_, fun he ht => ?_, fun he => ?_⟩
  · simp [handleReply, h, settle]
  · simp [classifyReply, he, ht]
  · simp [classifyReply, he, ht]
  · simp [classifyReply, he]

theorem reply_classification_witness :
    classifyReply (JsVal.obj [("data", JsVal.null), ("error", JsVal.bool true),
        ("trace", JsVal.str "stack...")])
      = Outcome.rejectFatal "Fatal consumer error" :=
  (reply_classification _).2.1 rfl rfl

/-- C9: noninterference of trace content — two envelopes with truthy
`error` and truthy `trace` produce the same caller-visible rejection,
whatever their `trace` and `data` contents are: nothing from the trace
reaches the caller. -/
theorem fatal_rejection_noninterference (r1 r2 : JsVal)
    (h1e : truthy (getField r1 "error") = true) (h1t : truthy (getField r1 "trace") = true)
    (h2e : truthy (getField r2 "error") = true) (h2t : truthy (getField r2 "trace") = true) :
    classifyReply r1 = classifyReply r2 := by
  simp [classifyReply, h1e, h1t, h2e, h2t]

theorem fatal_rejection_noninterference_witness :
    classifyReply (JsVal.obj [("data", JsVal.str "secret payload"), ("error", JsVal.bool true),
        ("trace", JsVal.str "TypeError at consumer.js:10")])
      = classifyReply (JsVal.obj [("data", JsVal.null), ("error", JsVal.num 1),
        ("trace", JsVal.str "completely different stack")]) :=
  fatal_rejection_noninterference _ _ rfl rfl rfl rfl

/-- C2: once an `rpcExec` call is registered (entry in `unresolved`,
timer armed, not yet settled), its future settles exactly once: over any
event sequence the call is either still pending or settled exactly once
(never twice); an event sequence containing the call's timer firing
leaves it settled exactly once, as does one containing a matching
reply. -/
theorem rpc_single_settlement (s : MsgrState) (id : String) (events : List Event)
    (h : pending s id) :
    (pending (run s events) id ∨ settledOnce (run s events) id)
    ∧ (Event.timerFire id ∈ events → settledOnce (run s events) id)
    ∧ (∀ content, Event.deliverReply (some id) content ∈ events →
        settledOnce (run s events) id) :=
  ⟨run_pending_dichotomy s id events h,
   fun hmem => run_settles_of_mem_timer s id events h hmem,
   fun content hmem => run_settles_of_mem_reply s id content events h hmem⟩

theorem rpc_single_settlement_witness :
    settledOnce
      (run (rpcExecRegister (MsgrState.mk [] [] []) "cid-1" (RpcOptions.mk none []))
        [Event.timerFire "cid-1"]) "cid-1" :=
  (rpc_single_settlement _ "cid-1" _ (by decide)).2.1 (List.Mem.head _)

/-- C3: registry invariant and race exclusivity — starting from a
pending call, a correlation id is in `unresolved` iff the call has not
settled, in every reachable state; and for the reply/timeout race in
either order, the first event settles the call (exactly one settlement)
and the second finds the registry entry absent and leaves the state
literally unchanged. -/
theorem registry_invariant_race (s : MsgrState) (id : String) (content : JsVal)
    (h : pending s id) :
    (∀ events, id ∈ (run s events).unresolved ↔ settleCount (run s events) id = 0)
    ∧ (step (step s (Event.deliverReply (some id) content)) (Event.timerFire id)
          = step s (Event.deliverReply (some id) content)
      ∧ settleCount (step s (Event.deliverReply (some id) content)) id = 1)
    ∧ (step (step s (Event.timerFire id)) (Event.deliverReply (some id) content)
          = step s (Event.timerFire id)
      ∧ settleCount (step s (Event.timerFire id)) id = 1) := by
  have hreply := step_reply_settles s id content h
  have htimer := step_timer_settles s id h
  refine ⟨fun events => ?_, ⟨?_, hreply.2.2⟩, ⟨?_, htimer.2.2⟩⟩
  · rcases run_pending_dichotomy s id events h with hp | hs
    · exact iff_of_true hp.1 hp.2.2
    · exact iff_of_false hs.1 (by rw [hs.2.2]; exact one_ne_zero)
  · show fireTimer _ id = _
    simp [fireTimer, hreply.2.1]
  · show handleReply _ (some id) content = _
    simp [handleReply, htimer.1]

theorem registry_invariant_race_witness :
    step (step (rpcExecRegister (MsgrState.mk [] [] []) "cid-2" (RpcOptions.mk none []))
          (Event.deliverReply (some "cid-2") (JsVal.obj [("data", JsVal.num 7)])))
        (Event.timerFire "cid-2")
      = step (rpcExecRegister (MsgrState.mk [] [] []) "cid-2" (RpcOptions.mk none []))
          (Event.deliverReply (some "cid-2") (JsVal.obj [("data", JsVal.num 7)])) :=
  (registry_invariant_race _ "cid-2" _ (by decide)).2.1.1

/-- C4: a message whose correlation id is not in the registry (including
a missing correlation id) is silently dropped by `_handleReply`: the
whole client state is returned unchanged and nothing is thrown. -/
theorem unmatched_reply_noop (s : MsgrState) (content : JsVal) :
    handleReply s none content = s
    ∧ ∀ id, id ∉ s.unresolved → handleReply s (some id) content = s :=
  ⟨rfl, fun id h => by simp [handleReply, h]⟩

theorem unmatched_reply_noop_witness :
    handleReply (MsgrState.mk [] [("other", 15000)] []) (some "ghost") JsVal.null
      = MsgrState.mk [] [("other", 15000)] [] :=
  (unmatched_reply_noop _ _).2 "ghost" (by simp)

/-- C5: an `rpcExec` call registered with a fresh correlation id that
receives no matching reply before its timer fires is rejected with the
timeout error built from the effective timeout; that message contains
the timeout value (in ms) as a substring, and an absent `options.timeout`
yields the 15000 ms default window. -/
theorem timeout_rejection (s : MsgrState) (id : String) (opts : RpcOptions)
    (events : List Event)
    (hfresh : s.timers.lookup id = none)
    (hnoreply : ∀ content, Event.deliverReply (some id) content ∉ events) :
    (id, Outcome.rejectTimeout (timeoutMessage (effectiveTimeout opts.timeout)))
      ∈ (run (rpcExecRegister s id opts) (events ++ [Event.timerFire id])).settled
    ∧ (toString (effectiveTimeout opts.timeout)).data
        <:+: (timeoutMessage (effectiveTimeout opts.timeout)).data
    ∧ effectiveTimeout none = 15000 := by
  refine ⟨?_, ?_, rfl⟩
  · have hreg : timerInv (rpcExecRegister s id opts) id (effectiveTimeout opts.timeout) := by
      refine Or.inl ?_
      show (s.timers ++ [(id, effectiveTimeout opts.timeout)]).lookup id = _
      rw [lookup_append_right _ _ _ hfresh]
      simp [List.lookup]
    have hrun := run_timerInv _ id _ events hreg hnoreply
    have happ : run (rpcExecRegister s id opts) (events ++ [Event.timerFire id])
        = fireTimer (run (rpcExecRegister s id opts) events) id := by
      simp [run, List.foldl_append, step]
    rw [happ]
    exact timerInv_fire _ id _ hrun
  · exact ⟨"RPC Server failed to respond before the configured timeout (".data,
      "ms)".data, by simp [timeoutMessage]⟩

theorem timeout_rejection_witness :
    ("cid-3", Outcome.rejectTimeout (timeoutMessage 50))
      ∈ (run (rpcExecRegister (MsgrState.mk [] [] []) "cid-3" (RpcOptions.mk (some 50) []))
          [Event.timerFire "cid-3"]).settled :=
  (timeout_rejection (MsgrState.mk [] [] []) "cid-3" (RpcOptions.mk (some 50) []) []
    rfl (by simp)).1

/-- C6 (counterexample): a transport-native publish option supplied by
the caller — here `{ persistent: true }` — is present in the caller's
options object but absent from the `sendOptions` that `rpcExec` actually
publishes with, refuting "any transport-native publish options supplied
by the caller forwarded verbatim". -/
theorem rpc_publish_options_counterexample :
    ("persistent", JsVal.bool true)
        ∈ (RpcOptions.mk none [("persistent", JsVal.bool true)]).publishOptions
    ∧ (rpcSendOptions "amq.gen-reply" "cid-0"
        (RpcOptions.mk none [("persistent", JsVal.bool true)])).lookup "persistent" = none :=
  ⟨List.mem_singleton.mpr rfl, rfl⟩

/-- C6 (amended): a ready-path `rpcExec` publishes exactly one message,
to the exchange under the given routing key, whose publish options are
exactly the JSON content-type marker, the fresh correlation id, the reply
queue as `replyTo` and an expiration equal to the effective timeout;
caller-supplied transport-native publish options are not forwarded (the
options argument only contributes `timeout`). -/
theorem rpc_publish_options (exchange key : String) (data : JsVal)
    (replyQueue correlationId : String) (opts : RpcOptions) :
    (rpcExecPublishes exchange key data replyQueue correlationId opts).length = 1
    ∧ ∀ pa ∈ rpcExecPublishes exchange key data replyQueue correlationId opts,
        pa.exchange = exchange ∧ pa.routingKey = key ∧ pa.content = data
        ∧ pa.options = [("contentType", JsVal.str "application/json"),
            ("correlationId", JsVal.str correlationId),
            ("replyTo", JsVal.str replyQueue),
            ("expiration", JsVal.num (effectiveTimeout opts.timeout))] := by
  refine ⟨rfl, ?_⟩
  intro pa hpa
  rcases List.mem_singleton.mp hpa with rfl
  exact ⟨rfl, rfl, rfl, rfl⟩

theorem rpc_publish_options_witness :
    (PublishAction.mk "msgr" "user.created" JsVal.null
        (rpcSendOptions "amq.gen-reply" "cid-0"
          (RpcOptions.mk none [("persistent", JsVal.bool true)]))).options
      = [("contentType", JsVal.str "application/json"),
         ("correlationId", JsVal.str "cid-0"),
         ("replyTo", JsVal.str "amq.gen-reply"),
         ("expiration", JsVal.num 15000)] :=
  ((rpc_publish_options "msgr" "user.created" JsVal.null "amq.gen-reply" "cid-0"
      (RpcOptions.mk none [("persistent", JsVal.bool true)])).2 _ (List.Mem.head _)).2.2.2

/-- C7 (code bug): `_waitForChannel` attaches only a fulfillment reaction
to `channelPromise` and never invokes `reject`, so a caller deferred on
channel readiness can never observe a rejection: with `channelPromise`
rejected (the terminal state after the `maxConnectionAttempts` retry
budget is exhausted by a failing connection), both `_waitForChannel`'s
promise and the deferred call stay unsettled forever, and no
`channelPromise` state makes `_waitForChannel` reject — the hard failure
the spec requires never surfaces. -/
theorem retry_exhaustion_hangs :
    waitForChannel PromiseState.rejected = PromiseState.unsettled
    ∧ deferredCall PromiseState.rejected = PromiseState.unsettled
    ∧ ∀ p, waitForChannel p ≠ PromiseState.rejected :=
  ⟨rfl, rfl, fun p => by cases p <;> simp [waitForChannel]⟩

/-- C8: calls issued before the channel is established are each deferred
(appended to the reaction queue, never dropped and never failed), and
when the channel becomes ready they are serviced exactly in issuance
order, after any previously queued calls. -/
theorem deferred_calls_serviced_in_order (q ops : List DeferredOp) :
    (channelReady (issueCalls (ChannelWait.mk false q) ops)).2 = q ++ ops := by
  rw [issueCalls_not_ready]; rfl

/-- C10: a falsy `options.timeout` — absent or `0` — is silently
replaced by the 15000 ms default, which is what both the armed timer and
the published message expiration then use. -/
theorem falsy_timeout_default (t : Option Int) (h : t = none ∨ t = some 0)
    (s : MsgrState) (id replyQueue correlationId : String)
    (po : List (String × JsVal)) :
    effectiveTimeout t = 15000
    ∧ (rpcSendOptions replyQueue correlationId (RpcOptions.mk t po)).lookup "expiration"
        = some (JsVal.num 15000)
    ∧ (rpcExecRegister s id (RpcOptions.mk t po)).timers = s.timers ++ [(id, 15000)] := by
  have ht : effectiveTimeout t = 15000 := by rcases h with rfl | rfl <;> rfl
  refine ⟨ht, ?_, ?_⟩
  · have hl : (rpcSendOptions replyQueue correlationId (RpcOptions.mk t po)).lookup "expiration"
        = some (JsVal.num (effectiveTimeout t)) := rfl
    rw [hl, ht]
  · show s.timers ++ [(id, effectiveTimeout t)] = s.timers ++ [(id, 15000)]
    rw [ht]

theorem falsy_timeout_default_witness :
    effectiveTimeout (some 0) = 15000 :=
  (falsy_timeout_default (some 0) (Or.inr rfl) (MsgrState.mk [] [] [])
    "cid-4" "amq.gen-reply" "cid-4" []).1

end Msgr
